import Mathlib

/-!
Verification of the OAuth 2.0 credential-lifecycle core of the
`lyft-rides-python-sdk` repository against its natural-language
specification.  The Python modules `lyft_rides/session.py`,
`lyft_rides/auth.py`, `lyft_rides/client.py`, `lyft_rides/errors.py`,
`lyft_rides/utils/handlers.py` and the persistence round trip in
`examples/authorization_code_grant.py` / `examples/utils.py` are shallowly
embedded below: time is an explicit `Int` parameter (Python `int(time())`),
HTTP transport is an explicit function argument from the request that would
be POSTed to the `Response` that comes back, and Python exceptions are
`Except` values.
-/

namespace LyftRides

/-- Modelled from the spec (section 6): the grant-type constant sent as
`grant_type=authorization_code`; the defining module
`lyft_rides/utils/auth.py` is absent from the sources. -/
def AUTHORIZATION_CODE_GRANT : String := "authorization_code"

/-- Modelled from the spec (section 6): the grant-type constant sent as
`grant_type=client_credentials`; the defining module
`lyft_rides/utils/auth.py` is absent from the sources. -/
def CLIENT_CREDENTIAL_GRANT : String := "client_credentials"

/-- Modelled from the spec (section 6): the token-endpoint grant type used
when exchanging a refresh token; the defining module
`lyft_rides/utils/auth.py` is absent from the sources. -/
def REFRESH_TOKEN : String := "refresh_token"

/-- Modelled from the spec (section 4.4): the constant token-type tag a
`Session` carries (access tokens are used as Bearer credentials); the
defining module `lyft_rides/utils/auth.py` is absent from the sources. -/
def OAUTH_TOKEN_TYPE : String := "Bearer"

/-- Modelled from the spec (section 6): the authorization/resource server
host; the defining module `lyft_rides/utils/auth.py` is absent from the
sources.  No claim depends on the concrete value. -/
def SERVER_HOST : String := "api.lyft.com"

/-- Python `str.split()` with no argument: split on runs of whitespace and
drop empty fragments (`session.py` line 135 splits the `scope` string this
way). -/
def pySplit (s : String) : List String :=
  ((s.toList.foldr
      (fun c gs =>
        if c.isWhitespace then [] :: gs
        else
          match gs with
          | [] => [[c]]
          | g :: rest => (c :: g) :: rest)
      ([] : List (List Char))).map (fun g => String.mk g)).filter
    (fun t => t ≠ "")

/-- Whether the first character list starts with the second one. -/
def charsStartWith : List Char → List Char → Bool
  | _, [] => true
  | [], _ :: _ => false
  | a :: as, b :: bs => a = b && charsStartWith as bs

/-- Whether the first character list contains the second as a contiguous
run. -/
def charsContain : List Char → List Char → Bool
  | [], pat => pat.isEmpty
  | l@(_ :: rest), pat => charsStartWith l pat || charsContain rest pat

/-- Python `pat in s` substring containment on strings (used by
`errors.py` line 30 for the content-type check). -/
def strContains (s pat : String) : Bool :=
  charsContain s.toList pat.toList

/-- Python truthiness of an optional string: `None` and `''` are falsy. -/
def truthy : Option String → Bool
  | none => false
  | some s => s ≠ ""

/-- `OAuth2Credential` from `lyft_rides/session.py`.  The Python attribute
`expires_in_seconds` is the value stored by `__init__` at line 94: the
*absolute* expiry instant `now + expires_in_seconds`, despite its name. -/
structure OAuth2Credential where
  client_id : String
  access_token : Option String
  expires_in_seconds : Int
  scopes : List String
  grant_type : String
  client_secret : Option String
  refresh_token : Option String
deriving DecidableEq, Repr

/-- `OAuth2Credential.__init__` (`session.py` lines 61-98), with the call
time `now` made explicit: stores `now + expires_in_seconds` in the
`expires_in_seconds` attribute and every other argument verbatim. -/
def OAuth2Credential.init (now : Int) (client_id : String)
    (access_token : Option String) (expires_in_seconds : Int)
    (scopes : List String) (grant_type : String)
    (client_secret : Option String) (refresh_token : Option String) :
    OAuth2Credential :=
  { client_id := client_id
    access_token := access_token
    expires_in_seconds := now + expires_in_seconds
    scopes := scopes
    grant_type := grant_type
    client_secret := client_secret
    refresh_token := refresh_token }

/-- `OAuth2Credential.is_stale` (`session.py` lines 147-154): the remaining
lifetime `expires_in_seconds - now` is compared against zero with `<= 0`. -/
def OAuth2Credential.is_stale (c : OAuth2Credential) (now : Int) : Bool :=
  c.expires_in_seconds - now ≤ 0

/-- `Session` from `lyft_rides/session.py` lines 22-50: wraps one
credential and a constant token-type tag. -/
structure Session where
  oauth2credential : OAuth2Credential
  token_type : String
deriving DecidableEq, Repr

/-- One entry of a JSON `error_detail` array: either a key/value mapping
(a JSON object) or a value of any other JSON type, which the adapter at
`errors.py` line 48 skips. -/
inductive DetailEntry where
  | dict (kvs : List (String × String))
  | other
deriving DecidableEq, Repr

/-- The JSON body of an HTTP response, restricted to the fields the
library reads: token fields (`session.py` lines 134-144) and error fields
(`errors.py` lines 34-56, `handlers.py` lines 37-39).  `none` models an
absent field. -/
structure Body where
  access_token : Option String := none
  expires_in : Option Int := none
  scope : Option String := none
  refresh_token : Option String := none
  error : Option String := none
  error_detail : Option (List DetailEntry) := none
  error_description : Option String := none
deriving DecidableEq, Repr

/-- An HTTP response as the library observes it: status code, reason
phrase, the `content-type` header (`none` when the header is missing) and
the JSON body (`none` when the body does not parse as JSON, in which case
Python `response.json()` raises a decode error). -/
structure Response where
  status_code : Nat
  reason : String
  content_type : Option String
  json : Option Body
deriving DecidableEq, Repr

/-- One element of a `ClientError`'s detail list: either an
`ErrorDetails(parameter, title)` object (`errors.py` lines 118-129) or the
raw `error_description` string appended at `errors.py` line 56. -/
inductive Detail where
  | details (parameter title : String)
  | descr (s : String)
deriving DecidableEq, Repr

/-- A Python value usable as an error message: `handlers.py` line 39
passes the raw `error_detail` JSON value (a list) where a string is
normally used. -/
inductive PyMessage where
  | str (s : String)
  | detailVal (l : List DetailEntry)
deriving DecidableEq, Repr

/-- Python truthiness of a message value: the empty string and the empty
list are falsy (`errors.py` lines 75 and 102, `if not message`). -/
def PyMessage.falsy : PyMessage → Bool
  | .str s => s = ""
  | .detailVal l => l.isEmpty

/-- The library's error taxonomy from `lyft_rides/errors.py`:
`ClientError` (with its adapted detail list, `meta` top-level error code,
message and raw response), `ServerError` (at most one detail),
`UnknownHttpError` (raw response only) and `LyftIllegalState`. -/
inductive ApiError where
  | clientError (errors : List Detail) (meta : String) (message : PyMessage)
      (response : Response)
  | serverError (error : Option Detail) (meta : String) (message : PyMessage)
      (response : Response)
  | unknownHttpError (response : Response)
  | lyftIllegalState (message : String)
deriving DecidableEq, Repr

/-- An exception escaping a library operation: either one of the
library's own `ApiError`s or an interpreter-level error (`KeyError`,
JSON decode error, `AttributeError`, `TypeError`) that the code can also
raise. -/
inductive PyError where
  | apiError (e : ApiError)
  | keyError (key : String)
  | jsonDecodeError
  | attributeError (msg : String)
  | typeError (msg : String)
deriving DecidableEq, Repr

/-- Whether an exception belongs to the library's own error taxonomy. -/
def PyError.inTaxonomy : PyError → Bool
  | .apiError _ => true
  | _ => false

/-- Whether a computation failed specifically with a `ClientError`. -/
def failedWithClientError {α : Type} : Except PyError α → Bool
  | .error (.apiError (.clientError _ _ _ _)) => true
  | _ => false

/-- Whether a computation returned a value rather than raising. -/
def succeeded {α : Type} : Except PyError α → Bool
  | .ok _ => true
  | .error _ => false

/-- Whether a response is one `_adapt_response` can turn into error
details: a present content-type header containing `application/json`, a
body that parses as JSON, and a truthy top-level `error` field. -/
def has_adaptable_error (r : Response) : Bool :=
  match r.content_type with
  | none => false
  | some ct =>
      strContains ct "application/json" &&
        match r.json with
        | none => false
        | some body => truthy body.error

/-- A server stub answering every token request with the same response. -/
def constRespond (r : Response) : TokenRequestArgs → Response := fun _ => r

/-- Loop body of the `error_detail` iteration in
`HTTPError._simple_response_to_error_adapter` (`errors.py` lines 47-54):
a mapping entry appends one `ErrorDetails` per key/value pair, any other
entry is skipped. -/
def detail_step (acc : List Detail) (entry : DetailEntry) : List Detail :=
  match entry with
  | .dict kvs => acc ++ kvs.map (fun kv => Detail.details kv.1 kv.2)
  | .other => acc

/-- The details one `error_detail` entry contributes: one
`ErrorDetails(parameter, title)` per key/value pair of a mapping entry,
nothing for a non-mapping entry. -/
def DetailEntry.toDetails : DetailEntry → List Detail
  | .dict kvs => kvs.map (fun kv => Detail.details kv.1 kv.2)
  | .other => []

/-- `HTTPError._simple_response_to_error_adapter` (`errors.py` lines
39-58): if `error_detail` is present, every key/value pair of every
mapping entry becomes one `ErrorDetails`; otherwise a present
`error_description` string becomes the sole detail entry. -/
def simple_response_to_error_adapter (body : Body) : List Detail :=
  match body.error_detail with
  | some entries => entries.foldl detail_step []
  | none =>
      match body.error_description with
      | some d => [Detail.descr d]
      | none => []

/-- `HTTPError._adapt_response` (`errors.py` lines 28-37): a missing
`content-type` header is a Python `KeyError`; a content type without
`application/json` raises `UnknownHttpError`; an unparsable body raises a
JSON decode error; a body whose `error` field is absent or falsy raises
`UnknownHttpError`; otherwise the adapted detail list is returned together
with the `error` value (`meta`). -/
def adapt_response (r : Response) : Except PyError (List Detail × String) :=
  match r.content_type with
  | none => .error (.keyError "content-type")
  | some ct =>
      if strContains ct "application/json" then
        match r.json with
        | none => .error .jsonDecodeError
        | some body =>
            match body.error with
            | some err =>
                if err = "" then .error (.apiError (.unknownHttpError r))
                else .ok (simple_response_to_error_adapter body, err)
            | none => .error (.apiError (.unknownHttpError r))
      else .error (.apiError (.unknownHttpError r))

/-- Default `ClientError` message (`errors.py` lines 75-79). -/
def clientErrorDefaultMessage : String :=
  "The request contains bad syntax or cannot be filled due to a fault from the client sending the request."

/-- Default `ServerError` message (`errors.py` lines 102-106). -/
def serverErrorDefaultMessage : String :=
  "The server encounter an error or is unable to process the request."

/-- Python `if not message: message = default` applied to the optional
constructor argument of `ClientError`/`ServerError`. -/
def effectiveMessage (dflt : String) : Option PyMessage → PyMessage
  | none => .str dflt
  | some m => if m.falsy then .str dflt else m

/-- The exception actually raised by Python `raise ClientError(response,
message)` (`errors.py` lines 61-85): when `_adapt_response` itself raises
(for example `UnknownHttpError`), that exception escapes the constructor
instead of the `ClientError`. -/
def mkClientErrorExn (r : Response) (message : Option PyMessage) : PyError :=
  match adapt_response r with
  | .error e => e
  | .ok (errors, meta) =>
      .apiError (.clientError errors meta
        (effectiveMessage clientErrorDefaultMessage message) r)

/-- The exception actually raised by Python `raise ServerError(response,
message)` (`errors.py` lines 88-115): the detail list is truncated to its
first element, and an exception inside `_adapt_response` escapes in place
of the `ServerError`. -/
def mkServerErrorExn (r : Response) (message : Option PyMessage) : PyError :=
  match adapt_response r with
  | .error e => e
  | .ok (errors, meta) =>
      .apiError (.serverError errors.head? meta
        (effectiveMessage serverErrorDefaultMessage message) r)

/-- `OAuth2Credential.make_from_response` (`session.py` lines 100-145): a
non-200 status raises a `ClientError` carrying the reason phrase; then the
body is parsed, the `scope` string is split on whitespace (a missing
`scope` makes `scopes.split()` raise `AttributeError` on `None`), and the
constructor is invoked (a missing `expires_in` makes
`int(expires_in_seconds)` raise `TypeError` on `None`). -/
def make_from_response (now : Int) (response : Response)
    (grant_type client_id : String) (client_secret : Option String) :
    Except PyError OAuth2Credential :=
  if response.status_code ≠ 200 then
    .error (mkClientErrorExn response
      (some (.str ("Error with Access Token Request: " ++ response.reason))))
  else
    match response.json with
    | none => .error .jsonDecodeError
    | some body =>
        match body.scope with
        | none => .error (.attributeError "NoneType object has no attribute split")
        | some scopeStr =>
            match body.expires_in with
            | none => .error (.typeError "int() argument cannot be NoneType")
            | some n =>
                .ok (OAuth2Credential.init now client_id body.access_token n
                  (pySplit scopeStr) grant_type client_secret
                  body.refresh_token)

/-- The form body POSTed to the token endpoint (`auth.py` lines 349-356):
every key is present, absent values are `None`. -/
structure TokenRequestArgs where
  grant_type : String
  client_id : Option String
  client_secret : Option String
  scope : Option String
  code : Option String
  refresh_token : Option String
deriving DecidableEq, Repr

/-- The form body built by `request_access_token` (`auth.py` lines
344-356): a scope set is serialized as a single space-joined string, every
other argument is passed through. -/
def token_request_args (grant_type : String)
    (client_id client_secret : Option String)
    (scopes : Option (List String)) (code refresh_token : Option String) :
    TokenRequestArgs :=
  { grant_type := grant_type
    client_id := client_id
    client_secret := client_secret
    scope := scopes.map (fun ss => String.intercalate " " ss)
    code := code
    refresh_token := refresh_token }

/-- The status check of `request_access_token` (`auth.py` lines 362-367):
the response itself on status 200, otherwise the exception raised by
`raise ClientError(response, message)` with the reason phrase in the
message. -/
def token_response_check (response : Response) : Except PyError Response :=
  if response.status_code = 200 then .ok response
  else
    .error (mkClientErrorExn response
      (some (.str ("Failed to request access token: " ++ response.reason ++ "."))))

/-- `request_access_token` (`auth.py` lines 310-367), with the HTTP POST
abstracted as the function `post` from the form body to the server's
response.  The issued request is returned alongside the outcome. -/
def request_access_token (post : TokenRequestArgs → Response)
    (grant_type : String) (client_id client_secret : Option String)
    (scopes : Option (List String)) (code refresh_token : Option String) :
    TokenRequestArgs × Except PyError Response :=
  let args := token_request_args grant_type client_id client_secret scopes
    code refresh_token
  (args, token_response_check (post args))

/-- `refresh_access_token` (`auth.py` lines 370-421): dispatch on the
credential's grant type.  Authorization-Code credentials exchange their
refresh token under `grant_type=refresh_token`; Client-Credentials
credentials re-request with secret and scopes; any other grant type
raises `LyftIllegalState`.  The first component lists the token requests
issued (none in the illegal-state case). -/
def refresh_access_token (post : TokenRequestArgs → Response) (now : Int)
    (credential : OAuth2Credential) :
    List TokenRequestArgs × Except PyError Session :=
  if credential.grant_type = AUTHORIZATION_CODE_GRANT then
    let p := request_access_token post REFRESH_TOKEN
      (some credential.client_id) credential.client_secret none none
      credential.refresh_token
    ([p.1],
     p.2.bind fun resp =>
       (make_from_response now resp credential.grant_type
           credential.client_id credential.client_secret).map
         fun oc => { oauth2credential := oc, token_type := OAUTH_TOKEN_TYPE })
  else if credential.grant_type = CLIENT_CREDENTIAL_GRANT then
    let p := request_access_token post CLIENT_CREDENTIAL_GRANT
      (some credential.client_id) credential.client_secret
      (some credential.scopes) none none
    ([p.1],
     p.2.bind fun resp =>
       (make_from_response now resp credential.grant_type
           credential.client_id credential.client_secret).map
         fun oc => { oauth2credential := oc, token_type := OAUTH_TOKEN_TYPE })
  else
    ([], .error (.apiError (.lyftIllegalState
      (credential.grant_type ++ " Grant Type does not support Refresh Tokens."))))

/-- `error_handler` (`utils/handlers.py` lines 19-45): on a 4xx status the
message is looked up as `response.json()['error_description']` when that
key exists, else `response.json()['error_detail']` (a `KeyError` when both
are missing, a JSON decode error when the body is not JSON), and
`ClientError` is raised with that literal value; a 5xx raises
`ServerError`; any other status returns the response unchanged. -/
def error_handler (r : Response) : Except PyError Response :=
  if 400 ≤ r.status_code ∧ r.status_code ≤ 499 then
    match r.json with
    | none => .error .jsonDecodeError
    | some body =>
        match body.error_description with
        | some d => .error (mkClientErrorExn r (some (.str d)))
        | none =>
            match body.error_detail with
            | some l => .error (mkClientErrorExn r (some (.detailVal l)))
            | none => .error (.keyError "error_detail")
  else if 500 ≤ r.status_code ∧ r.status_code ≤ 599 then
    .error (mkServerErrorExn r none)
  else .ok r

/-- The redirect-URL query parameters read by
`AuthorizationCodeGrant._verify_query` (`auth.py` lines 194-213): the
values of the `state`, `error` and `code` keys, `none` when the key is
absent from the parsed query string. -/
structure QueryParams where
  state : Option String
  error : Option String
  code : Option String
deriving DecidableEq, Repr

/-- The distinct `LyftIllegalState` conditions `_verify_query` can raise,
in source order (`auth.py` lines 191-227). -/
inductive VerifyError where
  | missingState
  | missingSessionToken
  | csrfMismatch (expected received : String)
  | bothCodeAndError
  | neitherCodeNorError
  | errorParam (e : String)
deriving DecidableEq, Repr

/-- The message each `VerifyError` carries into `LyftIllegalState`,
matching the format strings in `auth.py` lines 196-227. -/
def VerifyError.message : VerifyError → String
  | .missingState => "Bad Request. Missing state parameter."
  | .missingSessionToken => "Missing CSRF State Token in session."
  | .csrfMismatch expected received =>
      "CSRF Error. Expected " ++ expected ++ ", got " ++ received
  | .bothCodeAndError =>
      "Code and Error query params code and error can not both be set."
  | .neitherCodeNorError => "Neither query parameter code or error is set."
  | .errorParam e => e

/-- The `code`/`error` phase of `AuthorizationCodeGrant._verify_query`
(`auth.py` lines 211-229): Python truthiness throughout (`if error and
authorization_code`, `if error is None and authorization_code is None`,
`if error`), returning the `code` value — possibly `None` or empty —
when no check fires. -/
def verify_code_error_phase (q : QueryParams) :
    Except VerifyError (Option String) :=
  if truthy q.error ∧ truthy q.code then
    .error .bothCodeAndError
  else if q.error = none ∧ q.code = none then
    .error .neitherCodeNorError
  else if truthy q.error then
    .error (.errorParam (q.error.getD ""))
  else
    .ok q.code

/-- `AuthorizationCodeGrant._verify_query` (`auth.py` lines 176-229):
the CSRF state-check phase (`auth.py` lines 191-209, `is None` and `!=`
comparisons, with the stored token's `None` case handled defensively as in
the source) followed by the `code`/`error` phase. -/
def verify_query (state_token : Option String) (q : QueryParams) :
    Except VerifyError (Option String) :=
  match q.state with
  | none => .error .missingState
  | some received =>
      match state_token with
      | none => .error .missingSessionToken
      | some expected =>
          if expected ≠ received then
            .error (.csrfMismatch expected received)
          else
            verify_code_error_phase q

/-- Whether a `_verify_query` outcome got past the CSRF state check, that
is, did not fail with one of the three state-related errors raised before
the `code`/`error` phase. -/
def passes_state_check (r : Except VerifyError (Option String)) : Bool :=
  match r with
  | .ok _ => true
  | .error .missingState => false
  | .error .missingSessionToken => false
  | .error (.csrfMismatch _ _) => false
  | .error _ => true

/-- The `Request` object built by `LyftRidesClient._api_call` (`client.py`
lines 69-75, `lyft_rides/request.py` constructor arguments). -/
structure Request where
  auth_session : Session
  api_host : String
  method : String
  path : String
deriving DecidableEq, Repr

/-- `LyftRidesClient` state (`client.py` lines 45-52): the held session
and the API host. -/
structure LyftRidesClient where
  session : Session
  api_host : String
deriving DecidableEq, Repr

/-- `LyftRidesClient.__init__` (`client.py` lines 45-52). -/
def LyftRidesClient.init (session : Session) : LyftRidesClient :=
  { session := session, api_host := SERVER_HOST }

/-- `LyftRidesClient.refresh_oauth_credential` (`client.py` lines
343-349): when the held credential is stale, call `refresh_access_token`
and replace the held session with the refreshed one; otherwise leave the
client untouched.  The first component lists the token requests issued. -/
def refresh_oauth_credential (post : TokenRequestArgs → Response)
    (now : Int) (client : LyftRidesClient) :
    List TokenRequestArgs × Except PyError LyftRidesClient :=
  let credential := client.session.oauth2credential
  if credential.is_stale now then
    let p := refresh_access_token post now credential
    (p.1, p.2.map fun s => { client with session := s })
  else ([], .ok client)

/-- `LyftRidesClient._api_call` (`client.py` lines 54-77): first
`refresh_oauth_credential`, then construct the outbound `Request` from
the (possibly just-replaced) session.  The returned request models the
domain request handed to `Request.execute`; it is built only after the
refresh step completed, so every token request in the trace precedes it. -/
def api_call (post : TokenRequestArgs → Response) (now : Int)
    (client : LyftRidesClient) (method target : String) :
    List TokenRequestArgs × Except PyError (LyftRidesClient × Request) :=
  let p := refresh_oauth_credential post now client
  (p.1,
   p.2.map fun c2 =>
     (c2, { auth_session := c2.session, api_host := c2.api_host,
            method := method, path := target }))

/-- The persisted credential record written by
`examples/authorization_code_grant.py` lines 76-85 and read back by
`examples/utils.py` lines 113-140. -/
structure CredentialRecord where
  client_id : String
  access_token : Option String
  expires_in_seconds : Int
  scopes : List String
  grant_type : String
  client_secret : Option String
  refresh_token : Option String
deriving DecidableEq, Repr

/-- Serialization of a credential to the persisted record
(`examples/authorization_code_grant.py` lines 76-85): every attribute is
written verbatim — in particular the `expires_in_seconds` attribute,
which holds the absolute expiry instant computed at construction. -/
def save_credential (c : OAuth2Credential) : CredentialRecord :=
  { client_id := c.client_id
    access_token := c.access_token
    expires_in_seconds := c.expires_in_seconds
    scopes := c.scopes
    grant_type := c.grant_type
    client_secret := c.client_secret
    refresh_token := c.refresh_token }

/-- Reconstruction of a credential from the persisted record at load time
(`examples/utils.py` lines 143-162, `create_lyft_client`): the stored
`expires_in_seconds` value is passed to `OAuth2Credential.__init__` as the
relative seconds-to-live parameter, which adds the current time again. -/
def load_credential (now : Int) (r : CredentialRecord) : OAuth2Credential :=
  OAuth2Credential.init now r.client_id r.access_token r.expires_in_seconds
    r.scopes r.grant_type r.client_secret r.refresh_token

/-- The token request the spec prescribes for refreshing an
Authorization-Code credential: `grant_type=refresh_token`, the app
credentials and the stored refresh token — no scopes, no code. -/
def authCodeRefreshRequest (c : OAuth2Credential) : TokenRequestArgs :=
  { grant_type := REFRESH_TOKEN
    client_id := some c.client_id
    client_secret := c.client_secret
    scope := none
    code := none
    refresh_token := c.refresh_token }

/-- The token request the spec prescribes for refreshing a
Client-Credentials credential: a fresh `client_credentials` request with
the app credentials and the space-joined scopes — no refresh token, no
code. -/
def clientCredRefreshRequest (c : OAuth2Credential) : TokenRequestArgs :=
  { grant_type := CLIENT_CREDENTIAL_GRANT
    client_id := some c.client_id
    client_secret := c.client_secret
    scope := some (String.intercalate " " c.scopes)
    code := none
    refresh_token := none }

/-- Test fixture: a well-formed 200 token response. -/
def sampleTokenResponse : Response :=
  { status_code := 200
    reason := "OK"
    content_type := some "application/json"
    json := some { access_token := some "new-token", expires_in := some 3600,
                   scope := some "public profile",
                   refresh_token := some "new-refresh" } }

/-- Test fixture: a 500 response with an HTML body (not JSON). -/
def htmlServerErrorResponse : Response :=
  { status_code := 500
    reason := "Internal Server Error"
    content_type := some "text/html"
    json := none }

/-- Test fixture: a 400 JSON response whose body has a top-level `error`
but neither `error_description` nor `error_detail`. -/
def bareErrorResponse : Response :=
  { status_code := 400
    reason := "Bad Request"
    content_type := some "application/json"
    json := some { error := some "oops" } }

/-- Test fixture: a 404 JSON response whose body lacks the top-level
`error` field. -/
def noErrorFieldResponse : Response :=
  { status_code := 404
    reason := "Not Found"
    content_type := some "application/json"
    json := some { error_description := some "lost" } }

/-- Test fixture: a 400 JSON response carrying an `error_description`. -/
def describedErrorResponse : Response :=
  { status_code := 400
    reason := "Bad Request"
    content_type := some "application/json"
    json := some { error := some "invalid", error_description := some "bad thing" } }

/-- Test fixture: the spec's 422 example body
`{"error":"invalid_request","error_detail":[{"start_latitude":"is required"}]}`. -/
def invalidRequest422 : Response :=
  { status_code := 422
    reason := "Unprocessable Entity"
    content_type := some "application/json"
    json := some { error := some "invalid_request",
                   error_detail :=
                     some [DetailEntry.dict [("start_latitude", "is required")]] } }

/-- Test fixture: the spec's 503 example body
`{"error":"server_error","error_description":"overloaded"}`. -/
def overloaded503 : Response :=
  { status_code := 503
    reason := "Service Unavailable"
    content_type := some "application/json"
    json := some { error := some "server_error",
                   error_description := some "overloaded" } }

/-- Test fixture: a 200 token response whose body has a `scope` string but
no `expires_in` field. -/
def noExpiryTokenResponse : Response :=
  { status_code := 200
    reason := "OK"
    content_type := some "application/json"
    json := some { access_token := some "tok", scope := some "a b" } }

/-- Test fixture: a 200 token response whose body lacks the `scope`
field. -/
def noScopeTokenResponse : Response :=
  { status_code := 200
    reason := "OK"
    content_type := some "application/json"
    json := some { access_token := some "tok", expires_in := some 3600 } }

/-- Test fixture: a client whose credential, constructed at time 0, lives
3600 seconds. -/
def freshTestClient : LyftRidesClient :=
  LyftRidesClient.init
    ⟨OAuth2Credential.init 0 "cid" (some "t") 3600 ["public"]
        CLIENT_CREDENTIAL_GRANT (some "sec") none,
     OAUTH_TOKEN_TYPE⟩

/-- Test fixture: a client whose credential, constructed at time 0, has
zero lifetime. -/
def staleTestClient : LyftRidesClient :=
  LyftRidesClient.init
    ⟨OAuth2Credential.init 0 "cid" (some "t") 0 ["public"]
        CLIENT_CREDENTIAL_GRANT (some "sec") none,
     OAUTH_TOKEN_TYPE⟩

/-- Test fixture: the session `refresh_access_token` builds from
`sampleTokenResponse` for `staleTestClient`'s credential at time 0. -/
def refreshedTestSession : Session :=
  ⟨OAuth2Credential.init 0 "cid" (some "new-token") 3600
      (pySplit "public profile") CLIENT_CREDENTIAL_GRANT (some "sec")
      (some "new-refresh"),
   OAUTH_TOKEN_TYPE⟩

end LyftRides

namespace LyftRides

/-- Claim C1 (amended): for every `expires_in_seconds = e ≥ 0`, a
credential constructed at time `t` is not stale at `t` when `e ≥ 1` (a
zero-lifetime credential is stale immediately), and is stale at every
time `t'` at or after its expiry `t + e`. -/
theorem fresh_credential_staleness (t e t' : Int) (cid : String)
    (at_ sc rt : Option String) (scopes : List String) (gt : String)
    (he : 0 ≤ e) :
    (1 ≤ e →
       (OAuth2Credential.init t cid at_ e scopes gt sc rt).is_stale t = false) ∧
    (t + e ≤ t' →
       (OAuth2Credential.init t cid at_ e scopes gt sc rt).is_stale t' = true) := by
  unfold OAuth2Credential.init OAuth2Credential.is_stale
  constructor
  · intro hpos
    simp only [decide_eq_false_iff_not, not_le]
    omega
  · intro hlate
    simp only [decide_eq_true_eq]
    omega

/-- Witness for `fresh_credential_staleness`: with `e = 5` the credential
built at time 0 is fresh at 0 and stale at 7; with `e = 0` it is stale
already at its construction time 0 (its expiry). -/
theorem fresh_credential_staleness_witness :
    (OAuth2Credential.init 0 "cid" (some "tok") 5 ["public"]
        "authorization_code" none none).is_stale 0 = false ∧
    (OAuth2Credential.init 0 "cid" (some "tok") 5 ["public"]
        "authorization_code" none none).is_stale 7 = true ∧
    (OAuth2Credential.init 0 "cid" (some "tok") 0 ["public"]
        "authorization_code" none none).is_stale 0 = true :=
  ⟨(fresh_credential_staleness 0 5 7 "cid" (some "tok") none none ["public"]
      "authorization_code" (by decide)).1 (by decide),
   (fresh_credential_staleness 0 5 7 "cid" (some "tok") none none ["public"]
      "authorization_code" (by decide)).2 (by decide),
   (fresh_credential_staleness 0 0 0 "cid" (some "tok") none none ["public"]
      "authorization_code" (by decide)).2 (by decide)⟩

/-- Counterexample to claim C1 as stated: a credential constructed at time
`0` with `expires_in_seconds = 0` is stale immediately (`is_stale` uses
`<= 0`), contradicting the claim that every `expires_in_seconds ≥ 0` gives
`is_stale() == false` right after construction. -/
theorem zero_lifetime_credential_immediately_stale :
    (OAuth2Credential.init 0 "cid" (some "tok") 0 ["public"]
        "authorization_code" none none).is_stale 0 = true := by
  decide

/-- Every outcome of the `code`/`error` phase counts as having passed the
CSRF state check. -/
theorem passes_state_check_code_error_phase (q : QueryParams) :
    passes_state_check (verify_code_error_phase q) = true := by
  unfold verify_code_error_phase
  split
  · rfl
  · split
    · rfl
    · split
      · rfl
      · rfl

/-- Claim C3: with a stored state token, `_verify_query` fails when the
`state` query parameter is missing, fails with the CSRF-mismatch error
when it differs from the stored token, and gets past the state check
exactly when the received `state` equals the stored token. -/
theorem csrf_state_check (tok : String) (q : QueryParams) :
    (q.state = none → verify_query (some tok) q = .error .missingState) ∧
    (∀ s, q.state = some s → s ≠ tok →
       verify_query (some tok) q = .error (.csrfMismatch tok s)) ∧
    (passes_state_check (verify_query (some tok) q) = true ↔
       q.state = some tok) := by
  refine ⟨?_, ?_, ?_⟩
  · intro h
    simp [verify_query, h]
  · intro s hs hne
    have hne2 : tok ≠ s := fun h => hne h.symm
    simp [verify_query, hs, hne2]
  · cases hq : q.state with
    | none => simp [verify_query, hq, passes_state_check]
    | some s =>
        by_cases h : tok = s
        · subst h
          simp [verify_query, hq, passes_state_check_code_error_phase]
        · have hne2 : s ≠ tok := fun hh => h hh.symm
          simp [verify_query, hq, h, passes_state_check, hne2]

/-- Witness for `csrf_state_check` at the stored token `"abc"`, a query
with no `state`, and a query with the mismatching `state` `"xyz"`. -/
theorem csrf_state_check_witness :
    verify_query (some "abc") ⟨none, none, none⟩ = .error .missingState ∧
    verify_query (some "abc") ⟨some "xyz", none, none⟩ =
      .error (.csrfMismatch "abc" "xyz") :=
  ⟨(csrf_state_check "abc" ⟨none, none, none⟩).1 rfl,
   (csrf_state_check "abc" ⟨some "xyz", none, none⟩).2.1 "xyz" rfl
     (by decide)⟩

/-- Claim C4: once the state check passes, `_verify_query` fails when both
`code` and `error` are present (as the nonempty values `parse_qs` yields),
fails when neither is present, fails carrying the error text when only
`error` is present, and returns the authorization code when only `code`
is present. -/
theorem code_error_mutual_exclusivity (tok : String) (q : QueryParams)
    (hstate : q.state = some tok) :
    (∀ e c, q.error = some e → e ≠ "" → q.code = some c → c ≠ "" →
       verify_query (some tok) q = .error .bothCodeAndError) ∧
    (q.error = none → q.code = none →
       verify_query (some tok) q = .error .neitherCodeNorError) ∧
    (∀ e, q.error = some e → e ≠ "" → q.code = none →
       verify_query (some tok) q = .error (.errorParam e)) ∧
    (∀ c, q.error = none → q.code = some c →
       verify_query (some tok) q = .ok (some c)) := by
  have hred : verify_query (some tok) q = verify_code_error_phase q := by
    simp [verify_query, hstate]
  refine ⟨?_, ?_, ?_, ?_⟩
  · intro e c he hne hc hnc
    rw [hred]
    simp [verify_code_error_phase, truthy, he, hc, hne, hnc]
  · intro he hc
    rw [hred]
    simp [verify_code_error_phase, truthy, he, hc]
  · intro e he hne hc
    rw [hred]
    simp [verify_code_error_phase, truthy, he, hc, hne]
  · intro c he hc
    rw [hred]
    simp [verify_code_error_phase, truthy, he, hc]

/-- Witness for `code_error_mutual_exclusivity` with stored token `"s"`
and the four query shapes: both `code` and `error`, neither, only
`error`, only `code`. -/
theorem code_error_mutual_exclusivity_witness :
    verify_query (some "s") ⟨some "s", some "denied", some "c0"⟩ =
      .error .bothCodeAndError ∧
    verify_query (some "s") ⟨some "s", none, none⟩ =
      .error .neitherCodeNorError ∧
    verify_query (some "s") ⟨some "s", some "denied", none⟩ =
      .error (.errorParam "denied") ∧
    verify_query (some "s") ⟨some "s", none, some "c0"⟩ = .ok (some "c0") :=
  ⟨(code_error_mutual_exclusivity "s" ⟨some "s", some "denied", some "c0"⟩
      rfl).1 "denied" "c0" rfl (by decide) rfl (by decide),
   (code_error_mutual_exclusivity "s" ⟨some "s", none, none⟩
      rfl).2.1 rfl rfl,
   (code_error_mutual_exclusivity "s" ⟨some "s", some "denied", none⟩
      rfl).2.2.1 "denied" rfl (by decide) rfl,
   (code_error_mutual_exclusivity "s" ⟨some "s", none, some "c0"⟩
      rfl).2.2.2 "c0" rfl rfl⟩

/-- Appending a final dot never yields the empty string. -/
theorem string_append_dot_ne_empty (s : String) : s ++ "." ≠ "" := by
  simp [String.ext_iff, String.data_append]

/-- Claim C5: `refresh_access_token` dispatches on the credential's grant
type.  An Authorization-Code credential issues exactly the
`grant_type=refresh_token` request carrying its refresh token (no scopes,
no code) and, given a well-formed 200 token response, yields a new
Session; a Client-Credentials credential issues exactly the
`client_credentials` re-request with secret and scopes (no refresh token)
and likewise yields a new Session; any other grant type raises
`LyftIllegalState` without issuing a request. -/
theorem refresh_access_token_dispatch (post : TokenRequestArgs → Response)
    (now : Int) (c : OAuth2Credential) :
    (c.grant_type = AUTHORIZATION_CODE_GRANT →
       (refresh_access_token post now c).1 = [authCodeRefreshRequest c] ∧
       ∀ body s n, (post (authCodeRefreshRequest c)).status_code = 200 →
         (post (authCodeRefreshRequest c)).json = some body →
         body.scope = some s → body.expires_in = some n →
         ∃ sess, (refresh_access_token post now c).2 = .ok sess) ∧
    (c.grant_type = CLIENT_CREDENTIAL_GRANT →
       (refresh_access_token post now c).1 = [clientCredRefreshRequest c] ∧
       ∀ body s n, (post (clientCredRefreshRequest c)).status_code = 200 →
         (post (clientCredRefreshRequest c)).json = some body →
         body.scope = some s → body.expires_in = some n →
         ∃ sess, (refresh_access_token post now c).2 = .ok sess) ∧
    (c.grant_type ≠ AUTHORIZATION_CODE_GRANT →
       c.grant_type ≠ CLIENT_CREDENTIAL_GRANT →
       refresh_access_token post now c =
         ([], .error (.apiError (.lyftIllegalState
           (c.grant_type ++ " Grant Type does not support Refresh Tokens."))))) := by
  have hargs1 : token_request_args REFRESH_TOKEN (some c.client_id)
      c.client_secret none none c.refresh_token = authCodeRefreshRequest c := by
    simp [token_request_args, authCodeRefreshRequest]
  have hargs2 : token_request_args CLIENT_CREDENTIAL_GRANT (some c.client_id)
      c.client_secret (some c.scopes) none none = clientCredRefreshRequest c := by
    simp [token_request_args, clientCredRefreshRequest]
  have hd : CLIENT_CREDENTIAL_GRANT ≠ AUTHORIZATION_CODE_GRANT := by decide
  refine ⟨?_, ?_, ?_⟩
  · intro h
    constructor
    · simp [refresh_access_token, h, request_access_token, hargs1]
    · intro body s n h200 hjson hscope hexp
      refine ⟨⟨OAuth2Credential.init now c.client_id body.access_token n
        (pySplit s) c.grant_type c.client_secret body.refresh_token,
        OAUTH_TOKEN_TYPE⟩, ?_⟩
      simp [refresh_access_token, h, request_access_token, hargs1,
        token_response_check, h200, hjson, hscope, hexp, make_from_response,
        Except.bind, Except.map]
  · intro h
    constructor
    · simp [refresh_access_token, h, hd, request_access_token, hargs2]
    · intro body s n h200 hjson hscope hexp
      refine ⟨⟨OAuth2Credential.init now c.client_id body.access_token n
        (pySplit s) c.grant_type c.client_secret body.refresh_token,
        OAUTH_TOKEN_TYPE⟩, ?_⟩
      simp [refresh_access_token, h, hd, request_access_token, hargs2,
        token_response_check, h200, hjson, hscope, hexp, make_from_response,
        Except.bind, Except.map]
  · intro h1 h2
    simp [refresh_access_token, h1, h2]

/-- Witness for `refresh_access_token_dispatch`: a server always
answering `sampleTokenResponse`, one credential per grant type, and the
grant type `"implicit"` for the illegal-state branch. -/
theorem refresh_access_token_dispatch_witness :
    (refresh_access_token (fun _ => sampleTokenResponse) 50
        (OAuth2Credential.init 0 "cid" (some "t") 10 ["public"]
          AUTHORIZATION_CODE_GRANT (some "sec") (some "rt"))).1 =
      [authCodeRefreshRequest
        (OAuth2Credential.init 0 "cid" (some "t") 10 ["public"]
          AUTHORIZATION_CODE_GRANT (some "sec") (some "rt"))] ∧
    (∃ sess, (refresh_access_token (fun _ => sampleTokenResponse) 50
        (OAuth2Credential.init 0 "cid" (some "t") 10 ["public"]
          AUTHORIZATION_CODE_GRANT (some "sec") (some "rt"))).2 = .ok sess) ∧
    (refresh_access_token (fun _ => sampleTokenResponse) 50
        (OAuth2Credential.init 0 "cid" (some "t") 10 ["public"]
          CLIENT_CREDENTIAL_GRANT (some "sec") none)).1 =
      [clientCredRefreshRequest
        (OAuth2Credential.init 0 "cid" (some "t") 10 ["public"]
          CLIENT_CREDENTIAL_GRANT (some "sec") none)] ∧
    refresh_access_token (fun _ => sampleTokenResponse) 50
        (OAuth2Credential.init 0 "cid" (some "t") 10 ["public"] "implicit"
          (some "sec") none) =
      ([], .error (.apiError (.lyftIllegalState
        "implicit Grant Type does not support Refresh Tokens."))) :=
  ⟨((refresh_access_token_dispatch (fun _ => sampleTokenResponse) 50
        (OAuth2Credential.init 0 "cid" (some "t") 10 ["public"]
          AUTHORIZATION_CODE_GRANT (some "sec") (some "rt"))).1 rfl).1,
   ((refresh_access_token_dispatch (fun _ => sampleTokenResponse) 50
        (OAuth2Credential.init 0 "cid" (some "t") 10 ["public"]
          AUTHORIZATION_CODE_GRANT (some "sec") (some "rt"))).1 rfl).2
     { access_token := some "new-token", expires_in := some 3600,
       scope := some "public profile", refresh_token := some "new-refresh" }
     "public profile" 3600 rfl rfl rfl rfl,
   ((refresh_access_token_dispatch (fun _ => sampleTokenResponse) 50
        (OAuth2Credential.init 0 "cid" (some "t") 10 ["public"]
          CLIENT_CREDENTIAL_GRANT (some "sec") none)).2.1 rfl).1,
   (refresh_access_token_dispatch (fun _ => sampleTokenResponse) 50
        (OAuth2Credential.init 0 "cid" (some "t") 10 ["public"] "implicit"
          (some "sec") none)).2.2 (by decide) (by decide)⟩

/-- When a response has no adaptable JSON error (missing content-type
header, non-JSON content type, unparsable body, or an absent/falsy
`error` field), the exception escaping the `ClientError` constructor is
`UnknownHttpError` carrying the raw response, or one of the two
interpreter-level errors `_adapt_response` can raise — never the
`ClientError` itself. -/
theorem mkClientErrorExn_without_adaptable_error (r : Response)
    (m : Option PyMessage) (hno : has_adaptable_error r = false) :
    mkClientErrorExn r m = .apiError (.unknownHttpError r) ∨
    mkClientErrorExn r m = .keyError "content-type" ∨
    mkClientErrorExn r m = .jsonDecodeError := by
  rcases hct : r.content_type with _ | ct
  · right; left
    simp [mkClientErrorExn, adapt_response, hct]
  · cases hstr : strContains ct "application/json" with
    | false =>
        left
        simp [mkClientErrorExn, adapt_response, hct, hstr]
    | true =>
        rcases hjs : r.json with _ | body
        · right; right
          simp [mkClientErrorExn, adapt_response, hct, hstr, hjs]
        · have htr : truthy body.error = false := by
            simp [has_adaptable_error, hct, hstr, hjs] at hno
            exact hno
          rcases herr : body.error with _ | err
          · left
            simp [mkClientErrorExn, adapt_response, hct, hstr, hjs, herr]
          · have hempty : err = "" := by
              simp [truthy, herr] at htr
              exact htr
            subst hempty
            left
            simp [mkClientErrorExn, adapt_response, hct, hstr, hjs, herr]

/-- Claim C7 (amended): `request_access_token` returns the response
exactly when its status is 200; on any other status it fails, and the
failure is the `ClientError` carrying the reason phrase precisely when the
response has a JSON content type and a JSON body bearing a truthy
top-level `error` field — otherwise the failure is never a `ClientError`
but the `UnknownHttpError` (or interpreter error) the `ClientError`
constructor's own response adaptation raises in its place. -/
theorem request_access_token_status (post : TokenRequestArgs → Response)
    (gt : String) (cid cs : Option String) (scopes : Option (List String))
    (code rt : Option String) :
    ((request_access_token post gt cid cs scopes code rt).2 =
        .ok (post (request_access_token post gt cid cs scopes code rt).1) ↔
      (post (request_access_token post gt cid cs scopes code rt).1).status_code = 200) ∧
    ((post (request_access_token post gt cid cs scopes code rt).1).status_code ≠ 200 →
      ∃ e, (request_access_token post gt cid cs scopes code rt).2 = .error e) ∧
    (∀ ct body err,
      (post (request_access_token post gt cid cs scopes code rt).1).status_code ≠ 200 →
      (post (request_access_token post gt cid cs scopes code rt).1).content_type = some ct →
      strContains ct "application/json" = true →
      (post (request_access_token post gt cid cs scopes code rt).1).json = some body →
      body.error = some err → err ≠ "" →
      (request_access_token post gt cid cs scopes code rt).2 =
        .error (.apiError (.clientError (simple_response_to_error_adapter body) err
          (.str ("Failed to request access token: " ++
            (post (request_access_token post gt cid cs scopes code rt).1).reason ++ "."))
          (post (request_access_token post gt cid cs scopes code rt).1)))) ∧
    ((post (request_access_token post gt cid cs scopes code rt).1).status_code ≠ 200 →
      has_adaptable_error (post (request_access_token post gt cid cs scopes code rt).1) = false →
      failedWithClientError (request_access_token post gt cid cs scopes code rt).2 = false ∧
      ((request_access_token post gt cid cs scopes code rt).2 =
         .error (.apiError (.unknownHttpError
           (post (request_access_token post gt cid cs scopes code rt).1))) ∨
       (request_access_token post gt cid cs scopes code rt).2 =
         .error (.keyError "content-type") ∨
       (request_access_token post gt cid cs scopes code rt).2 =
         .error .jsonDecodeError)) := by
  simp only [request_access_token]
  generalize post (token_request_args gt cid cs scopes code rt) = r
  unfold token_response_check
  refine ⟨?_, ?_, ?_, ?_⟩
  · by_cases h : r.status_code = 200
    · simp [h]
    · simp [h]
  · intro h
    rw [if_neg h]
    exact ⟨_, rfl⟩
  · intro ct body err h hct hstr hjs he hne
    rw [if_neg h]
    have hadapt : adapt_response r = .ok (simple_response_to_error_adapter body, err) := by
      simp [adapt_response, hct, hstr, hjs, he, hne]
    have hne2 : ("Failed to request access token: " ++ r.reason ++ ".") ≠ "" :=
      string_append_dot_ne_empty _
    simp [mkClientErrorExn, hadapt, effectiveMessage, PyMessage.falsy, hne2]
  · intro h hno
    rw [if_neg h]
    rcases mkClientErrorExn_without_adaptable_error r
        (some (.str ("Failed to request access token: " ++ r.reason ++ ".")))
        hno with h1 | h1 | h1
    · rw [h1]
      exact ⟨rfl, Or.inl rfl⟩
    · rw [h1]
      exact ⟨rfl, Or.inr (Or.inl rfl)⟩
    · rw [h1]
      exact ⟨rfl, Or.inr (Or.inr rfl)⟩

/-- Witness for `request_access_token_status`: a server answering every
request with `describedErrorResponse` (a 400 whose JSON body has a truthy
`error`) yields the `ClientError` carrying the reason phrase, while one
answering with the non-JSON `htmlServerErrorResponse` yields a failure
that is not a `ClientError`. -/
theorem request_access_token_status_witness :
    (request_access_token (constRespond describedErrorResponse)
        "authorization_code" (some "cid") (some "sec") none (some "c0")
        none).2 =
      .error (.apiError (.clientError
        (simple_response_to_error_adapter
          { error := some "invalid", error_description := some "bad thing" })
        "invalid"
        (.str ("Failed to request access token: " ++ "Bad Request" ++ "."))
        describedErrorResponse)) ∧
    (failedWithClientError
        (request_access_token (constRespond htmlServerErrorResponse)
          "client_credentials" (some "cid") (some "sec") none none none).2 =
        false ∧
      ((request_access_token (constRespond htmlServerErrorResponse)
          "client_credentials" (some "cid") (some "sec") none none none).2 =
          .error (.apiError (.unknownHttpError htmlServerErrorResponse)) ∨
       (request_access_token (constRespond htmlServerErrorResponse)
          "client_credentials" (some "cid") (some "sec") none none none).2 =
          .error (.keyError "content-type") ∨
       (request_access_token (constRespond htmlServerErrorResponse)
          "client_credentials" (some "cid") (some "sec") none none none).2 =
          .error .jsonDecodeError)) :=
  ⟨(request_access_token_status (constRespond describedErrorResponse)
      "authorization_code" (some "cid") (some "sec") none (some "c0")
      none).2.2.1 "application/json"
    { error := some "invalid", error_description := some "bad thing" }
    "invalid" (by decide) rfl (by decide) rfl rfl (by decide),
   (request_access_token_status (constRespond htmlServerErrorResponse)
      "client_credentials" (some "cid") (some "sec") none none
      none).2.2.2 (by decide) (by decide)⟩

/-- Counterexample to claim C7 as stated: a 500 response with an HTML
body makes `request_access_token` fail, but with `UnknownHttpError` (the
`ClientError` constructor adapts the response and raises it instead), not
with a `ClientError`. -/
theorem request_access_token_not_client_error_on_html :
    (request_access_token (constRespond htmlServerErrorResponse)
        "authorization_code" none none none none none).2 =
      .error (.apiError (.unknownHttpError htmlServerErrorResponse)) ∧
    failedWithClientError
      (request_access_token (constRespond htmlServerErrorResponse)
        "authorization_code" none none none none none).2 = false := by
  constructor
  · rfl
  · rfl

/-- Claim C10 (amended): on a 200 response whose JSON body carries both a
`scope` string and an `expires_in` value, `make_from_response` returns the
credential whose scopes are the whitespace-separated tokens of the scope
string; on a 200 response whose body lacks `scope`, it raises an
`AttributeError` — no credential and nothing from the library's error
taxonomy. -/
theorem make_from_response_scope_behavior (now : Int) (r : Response)
    (gt cid : String) (cs : Option String) (body : Body)
    (h200 : r.status_code = 200) (hjson : r.json = some body) :
    (∀ s n, body.scope = some s → body.expires_in = some n →
       make_from_response now r gt cid cs =
         .ok (OAuth2Credential.init now cid body.access_token n (pySplit s)
           gt cs body.refresh_token)) ∧
    (body.scope = none →
       make_from_response now r gt cid cs =
         .error (.attributeError "NoneType object has no attribute split") ∧
       PyError.inTaxonomy
         (.attributeError "NoneType object has no attribute split") = false) := by
  constructor
  · intro s n hs hn
    simp [make_from_response, h200, hjson, hs, hn]
  · intro hs
    refine ⟨?_, rfl⟩
    simp [make_from_response, h200, hjson, hs]

/-- Witness for `make_from_response_scope_behavior`: the well-formed
`sampleTokenResponse` yields the credential with scopes split from
`"public profile"`, and the scope-less `noScopeTokenResponse` raises the
`AttributeError`. -/
theorem make_from_response_scope_behavior_witness :
    make_from_response 0 sampleTokenResponse "authorization_code" "cid"
        (some "sec") =
      .ok (OAuth2Credential.init 0 "cid" (some "new-token") 3600
        (pySplit "public profile") "authorization_code" (some "sec")
        (some "new-refresh")) ∧
    make_from_response 0 noScopeTokenResponse "client_credentials" "cid"
        none =
      .error (.attributeError "NoneType object has no attribute split") :=
  ⟨(make_from_response_scope_behavior 0 sampleTokenResponse
      "authorization_code" "cid" (some "sec")
      { access_token := some "new-token", expires_in := some 3600,
        scope := some "public profile", refresh_token := some "new-refresh" }
      rfl rfl).1 "public profile" 3600 rfl rfl,
   ((make_from_response_scope_behavior 0 noScopeTokenResponse
      "client_credentials" "cid" none
      { access_token := some "tok", expires_in := some 3600 }
      rfl rfl).2 rfl).1⟩

/-- Counterexample to claim C10 as stated: a 200 response whose body has
a `scope` string but no `expires_in` does not return a credential either —
`int(None)` raises a `TypeError` — so a present `scope` alone is not a
sufficient precondition. -/
theorem make_from_response_missing_expiry_no_credential :
    make_from_response 0 noExpiryTokenResponse "authorization_code" "cid"
        none =
      .error (.typeError "int() argument cannot be NoneType") ∧
    succeeded (make_from_response 0 noExpiryTokenResponse
      "authorization_code" "cid" none) = false := by
  constructor
  · rfl
  · rfl

/-- The `error_detail` fold accumulates, in order, the details of every
mapping entry. -/
theorem foldl_detail_step (entries : List DetailEntry) (acc : List Detail) :
    entries.foldl detail_step acc =
      acc ++ (entries.map DetailEntry.toDetails).flatten := by
  induction entries generalizing acc with
  | nil => simp
  | cons e es ih =>
      cases e with
      | dict kvs => simp [detail_step, DetailEntry.toDetails, ih]
      | other => simp [detail_step, DetailEntry.toDetails, ih]

/-- Claim C8: the error adapter raises `UnknownHttpError` (with the raw
response) for a non-JSON content type and for a JSON body without a
top-level `error`; a present `error_detail` array contributes one
`ErrorDetails` per key/value pair of each mapping entry, else a present
`error_description` string becomes the sole detail; a 4xx `ClientError`
keeps the full detail list while a 5xx `ServerError` keeps at most its
first element. -/
theorem error_adapter_mapping (r : Response)
    (hstatus : ¬(200 ≤ r.status_code ∧ r.status_code ≤ 299)) :
    (∀ ct, r.content_type = some ct →
       strContains ct "application/json" = false →
       adapt_response r = .error (.apiError (.unknownHttpError r))) ∧
    (∀ ct body, r.content_type = some ct →
       strContains ct "application/json" = true → r.json = some body →
       body.error = none →
       adapt_response r = .error (.apiError (.unknownHttpError r))) ∧
    (∀ body entries, r.json = some body → body.error_detail = some entries →
       simple_response_to_error_adapter body =
         (entries.map DetailEntry.toDetails).flatten) ∧
    (∀ body d, r.json = some body → body.error_detail = none →
       body.error_description = some d →
       simple_response_to_error_adapter body = [Detail.descr d]) ∧
    (∀ ct body err msg, 400 ≤ r.status_code → r.status_code ≤ 499 →
       r.content_type = some ct → strContains ct "application/json" = true →
       r.json = some body → body.error = some err → err ≠ "" →
       mkClientErrorExn r msg = .apiError (.clientError
         (simple_response_to_error_adapter body) err
         (effectiveMessage clientErrorDefaultMessage msg) r)) ∧
    (∀ ct body err msg, 500 ≤ r.status_code → r.status_code ≤ 599 →
       r.content_type = some ct → strContains ct "application/json" = true →
       r.json = some body → body.error = some err → err ≠ "" →
       mkServerErrorExn r msg = .apiError (.serverError
         (simple_response_to_error_adapter body).head? err
         (effectiveMessage serverErrorDefaultMessage msg) r)) := by
  refine ⟨?_, ?_, ?_, ?_, ?_, ?_⟩
  · intro ct hct hstr
    simp [adapt_response, hct, hstr]
  · intro ct body hct hstr hjs he
    simp [adapt_response, hct, hstr, hjs, he]
  · intro body entries hjs hdet
    simp [simple_response_to_error_adapter, hdet, foldl_detail_step]
  · intro body d hjs hdet hdesc
    simp [simple_response_to_error_adapter, hdet, hdesc]
  · intro ct body err msg h4 h4b hct hstr hjs he hne
    have hadapt : adapt_response r =
        .ok (simple_response_to_error_adapter body, err) := by
      simp [adapt_response, hct, hstr, hjs, he, hne]
    simp [mkClientErrorExn, hadapt]
  · intro ct body err msg h5 h5b hct hstr hjs he hne
    have hadapt : adapt_response r =
        .ok (simple_response_to_error_adapter body, err) := by
      simp [adapt_response, hct, hstr, hjs, he, hne]
    simp [mkServerErrorExn, hadapt]

/-- Witness for `error_adapter_mapping`, covering all six branches with
the spec's own examples: the non-JSON 500, the JSON 404 without `error`,
the 422 `error_detail` example (one `ErrorDetails("start_latitude", "is
required")`), and the 503 `error_description` example (single detail
`"overloaded"`). -/
theorem error_adapter_mapping_witness :
    adapt_response htmlServerErrorResponse =
      .error (.apiError (.unknownHttpError htmlServerErrorResponse)) ∧
    adapt_response noErrorFieldResponse =
      .error (.apiError (.unknownHttpError noErrorFieldResponse)) ∧
    simple_response_to_error_adapter
        { error := some "invalid_request",
          error_detail := some [DetailEntry.dict [("start_latitude", "is required")]] } =
      [Detail.details "start_latitude" "is required"] ∧
    simple_response_to_error_adapter
        { error := some "server_error", error_description := some "overloaded" } =
      [Detail.descr "overloaded"] ∧
    mkClientErrorExn invalidRequest422 none =
      .apiError (.clientError [Detail.details "start_latitude" "is required"]
        "invalid_request" (.str clientErrorDefaultMessage) invalidRequest422) ∧
    mkServerErrorExn overloaded503 none =
      .apiError (.serverError (some (Detail.descr "overloaded"))
        "server_error" (.str serverErrorDefaultMessage) overloaded503) :=
  ⟨(error_adapter_mapping htmlServerErrorResponse (by decide)).1 "text/html"
      rfl (by decide),
   (error_adapter_mapping noErrorFieldResponse (by decide)).2.1
      "application/json" { error_description := some "lost" } rfl (by decide)
      rfl rfl,
   (error_adapter_mapping invalidRequest422 (by decide)).2.2.1
      { error := some "invalid_request",
        error_detail := some [DetailEntry.dict [("start_latitude", "is required")]] }
      [DetailEntry.dict [("start_latitude", "is required")]] rfl rfl,
   (error_adapter_mapping overloaded503 (by decide)).2.2.2.1
      { error := some "server_error", error_description := some "overloaded" }
      "overloaded" rfl rfl rfl,
   (error_adapter_mapping invalidRequest422 (by decide)).2.2.2.2.1
      "application/json"
      { error := some "invalid_request",
        error_detail := some [DetailEntry.dict [("start_latitude", "is required")]] }
      "invalid_request" none (by decide) (by decide) rfl (by decide) rfl rfl
      (by decide),
   (error_adapter_mapping overloaded503 (by decide)).2.2.2.2.2
      "application/json"
      { error := some "server_error", error_description := some "overloaded" }
      "server_error" none (by decide) (by decide) rfl (by decide) rfl rfl
      (by decide)⟩

/-- Claim C9 (amended): on a 4xx response whose JSON body carries a truthy
top-level `error` and a non-empty `error_description` (else a non-empty
`error_detail`), `error_handler` raises a `ClientError` whose message is
that literal value; on a 5xx response with such an error-bearing JSON
body it raises a `ServerError`; any status outside 4xx/5xx returns the
response unchanged; and a 4xx JSON body lacking both keys makes the
handler fail with a `KeyError`, outside the library's taxonomy. -/
theorem error_handler_behavior (r : Response) :
    (∀ ct body err d, 400 ≤ r.status_code → r.status_code ≤ 499 →
       r.content_type = some ct → strContains ct "application/json" = true →
       r.json = some body → body.error = some err → err ≠ "" →
       body.error_description = some d → d ≠ "" →
       error_handler r = .error (.apiError (.clientError
         (simple_response_to_error_adapter body) err (.str d) r))) ∧
    (∀ ct body err l, 400 ≤ r.status_code → r.status_code ≤ 499 →
       r.content_type = some ct → strContains ct "application/json" = true →
       r.json = some body → body.error = some err → err ≠ "" →
       body.error_description = none → body.error_detail = some l → l ≠ [] →
       error_handler r = .error (.apiError (.clientError
         (simple_response_to_error_adapter body) err (.detailVal l) r))) ∧
    (∀ ct body err, 500 ≤ r.status_code → r.status_code ≤ 599 →
       r.content_type = some ct → strContains ct "application/json" = true →
       r.json = some body → body.error = some err → err ≠ "" →
       error_handler r = .error (.apiError (.serverError
         (simple_response_to_error_adapter body).head? err
         (.str serverErrorDefaultMessage) r))) ∧
    (r.status_code < 400 ∨ 600 ≤ r.status_code → error_handler r = .ok r) ∧
    (∀ body, 400 ≤ r.status_code → r.status_code ≤ 499 → r.json = some body →
       body.error_description = none → body.error_detail = none →
       error_handler r = .error (.keyError "error_detail") ∧
       PyError.inTaxonomy (.keyError "error_detail") = false) := by
  refine ⟨?_, ?_, ?_, ?_, ?_⟩
  · intro ct body err d h4 h4b hct hstr hjs he hne hd hdne
    have hadapt : adapt_response r =
        .ok (simple_response_to_error_adapter body, err) := by
      simp [adapt_response, hct, hstr, hjs, he, hne]
    simp [error_handler, h4, h4b, hjs, hd, mkClientErrorExn, hadapt,
      effectiveMessage, PyMessage.falsy, hdne]
  · intro ct body err l h4 h4b hct hstr hjs he hne hd hdet hlne
    have hadapt : adapt_response r =
        .ok (simple_response_to_error_adapter body, err) := by
      simp [adapt_response, hct, hstr, hjs, he, hne]
    simp [error_handler, h4, h4b, hjs, hd, hdet, mkClientErrorExn, hadapt,
      effectiveMessage, PyMessage.falsy, hlne]
  · intro ct body err h5 h5b hct hstr hjs he hne
    have hnot4 : ¬(400 ≤ r.status_code ∧ r.status_code ≤ 499) := by omega
    have hadapt : adapt_response r =
        .ok (simple_response_to_error_adapter body, err) := by
      simp [adapt_response, hct, hstr, hjs, he, hne]
    simp [error_handler, hnot4, h5, h5b, mkServerErrorExn, hadapt,
      effectiveMessage, PyMessage.falsy]
  · intro h
    have hnot4 : ¬(400 ≤ r.status_code ∧ r.status_code ≤ 499) := by omega
    have hnot5 : ¬(500 ≤ r.status_code ∧ r.status_code ≤ 599) := by omega
    simp [error_handler, hnot4, hnot5]
  · intro body h4 h4b hjs hd hdet
    refine ⟨?_, rfl⟩
    simp [error_handler, h4, h4b, hjs, hd, hdet]

/-- Witness for `error_handler_behavior`: the 400 with an
`error_description`, the 422 with an `error_detail` list, the 503
`ServerError` case, a 200 passing through unchanged, and the bare 400
body raising the `KeyError`. -/
theorem error_handler_behavior_witness :
    error_handler describedErrorResponse =
      .error (.apiError (.clientError [Detail.descr "bad thing"] "invalid"
        (.str "bad thing") describedErrorResponse)) ∧
    error_handler invalidRequest422 =
      .error (.apiError (.clientError
        [Detail.details "start_latitude" "is required"] "invalid_request"
        (.detailVal [DetailEntry.dict [("start_latitude", "is required")]])
        invalidRequest422)) ∧
    error_handler overloaded503 =
      .error (.apiError (.serverError (some (Detail.descr "overloaded"))
        "server_error" (.str serverErrorDefaultMessage) overloaded503)) ∧
    error_handler sampleTokenResponse = .ok sampleTokenResponse ∧
    error_handler bareErrorResponse = .error (.keyError "error_detail") :=
  ⟨(error_handler_behavior describedErrorResponse).1 "application/json"
      { error := some "invalid", error_description := some "bad thing" }
      "invalid" "bad thing" (by decide) (by decide) rfl (by decide) rfl rfl
      (by decide) rfl (by decide),
   (error_handler_behavior invalidRequest422).2.1 "application/json"
      { error := some "invalid_request",
        error_detail := some [DetailEntry.dict [("start_latitude", "is required")]] }
      "invalid_request" [DetailEntry.dict [("start_latitude", "is required")]]
      (by decide) (by decide) rfl (by decide) rfl rfl (by decide) rfl rfl
      (by decide),
   (error_handler_behavior overloaded503).2.2.1 "application/json"
      { error := some "server_error", error_description := some "overloaded" }
      "server_error" (by decide) (by decide) rfl (by decide) rfl rfl
      (by decide),
   (error_handler_behavior sampleTokenResponse).2.2.2.1 (by decide),
   ((error_handler_behavior bareErrorResponse).2.2.2.2
      { error := some "oops" } (by decide) (by decide) rfl rfl rfl).1⟩

/-- Counterexample to claim C9 as stated: a 400 JSON response whose body
has a top-level `error` but neither `error_description` nor
`error_detail` makes `error_handler` raise a Python `KeyError` — not a
`ClientError`, and outside the library's error taxonomy. -/
theorem error_handler_key_error_on_bare_body :
    error_handler bareErrorResponse = .error (.keyError "error_detail") ∧
    failedWithClientError (error_handler bareErrorResponse) = false ∧
    PyError.inTaxonomy (.keyError "error_detail") = false := by
  refine ⟨rfl, rfl, rfl⟩

/-- Claim C2: `_api_call` runs the staleness check before building the
outbound request.  A non-stale credential leaves the client untouched
and issues no token request; a stale credential's refresh trace is the
dispatch's whole token-request trace, and on a successful refresh the
held session is replaced by the refreshed one before the domain request
is built from it; a client holding a zero-lifetime credential issues
exactly one token (refresh) request on its first call. -/
theorem api_call_refresh_dispatch (post : TokenRequestArgs → Response)
    (now : Int) (client : LyftRidesClient) (m t : String) :
    (client.session.oauth2credential.is_stale now = false →
       api_call post now client m t =
         ([], .ok (client,
           { auth_session := client.session, api_host := client.api_host,
             method := m, path := t }))) ∧
    (client.session.oauth2credential.is_stale now = true →
       (api_call post now client m t).1 =
         (refresh_access_token post now client.session.oauth2credential).1 ∧
       ∀ s, (refresh_access_token post now
           client.session.oauth2credential).2 = .ok s →
         api_call post now client m t =
           ((refresh_access_token post now
               client.session.oauth2credential).1,
            .ok ({ client with session := s },
              { auth_session := s, api_host := client.api_host,
                method := m, path := t }))) ∧
    (∀ cid at_ sc cs rt,
       ((api_call post now
           (LyftRidesClient.init
             ⟨OAuth2Credential.init now cid at_ 0 sc
                 AUTHORIZATION_CODE_GRANT cs rt, OAUTH_TOKEN_TYPE⟩)
           m t).1).length = 1) := by
  refine ⟨?_, ?_, ?_⟩
  · intro h
    simp [api_call, refresh_oauth_credential, h, Except.map]
  · intro h
    constructor
    · simp [api_call, refresh_oauth_credential, h]
    · intro s hs
      simp [api_call, refresh_oauth_credential, h, hs, Except.map]
  · intro cid at_ sc cs rt
    have hst : (OAuth2Credential.init now cid at_ 0 sc
        AUTHORIZATION_CODE_GRANT cs rt).is_stale now = true := by
      unfold OAuth2Credential.init OAuth2Credential.is_stale
      simp
    have hgrant : (OAuth2Credential.init now cid at_ 0 sc
        AUTHORIZATION_CODE_GRANT cs rt).grant_type =
        AUTHORIZATION_CODE_GRANT := rfl
    simp [api_call, refresh_oauth_credential, LyftRidesClient.init, hst,
      refresh_access_token, hgrant]

/-- Witness for `api_call_refresh_dispatch`: at time 5 the fresh client
passes through untouched; at time 0 the zero-lifetime client refreshes
once, swaps in the session built from `sampleTokenResponse`, and its
token-request trace has exactly one element. -/
theorem api_call_refresh_dispatch_witness :
    api_call (constRespond sampleTokenResponse) 5 freshTestClient "GET"
        "v1/profile" =
      ([], .ok (freshTestClient,
        { auth_session := freshTestClient.session,
          api_host := freshTestClient.api_host,
          method := "GET", path := "v1/profile" })) ∧
    (api_call (constRespond sampleTokenResponse) 0 staleTestClient "GET"
        "v1/eta").1 =
      (refresh_access_token (constRespond sampleTokenResponse) 0
        staleTestClient.session.oauth2credential).1 ∧
    api_call (constRespond sampleTokenResponse) 0 staleTestClient "GET"
        "v1/eta" =
      ((refresh_access_token (constRespond sampleTokenResponse) 0
          staleTestClient.session.oauth2credential).1,
       .ok ({ staleTestClient with session := refreshedTestSession },
         { auth_session := refreshedTestSession,
           api_host := staleTestClient.api_host,
           method := "GET", path := "v1/eta" })) ∧
    ((api_call (constRespond sampleTokenResponse) 0
        (LyftRidesClient.init
          ⟨OAuth2Credential.init 0 "cid" (some "t") 0 ["public"]
              AUTHORIZATION_CODE_GRANT (some "sec") (some "rt"),
           OAUTH_TOKEN_TYPE⟩)
        "GET" "v1/profile").1).length = 1 :=
  ⟨(api_call_refresh_dispatch (constRespond sampleTokenResponse) 5
      freshTestClient "GET" "v1/profile").1 (by decide),
   ((api_call_refresh_dispatch (constRespond sampleTokenResponse) 0
      staleTestClient "GET" "v1/eta").2.1 (by decide)).1,
   ((api_call_refresh_dispatch (constRespond sampleTokenResponse) 0
      staleTestClient "GET" "v1/eta").2.1 (by decide)).2
     refreshedTestSession rfl,
   (api_call_refresh_dispatch (constRespond sampleTokenResponse) 0
      (LyftRidesClient.init
        ⟨OAuth2Credential.init 0 "cid" (some "t") 0 ["public"]
            AUTHORIZATION_CODE_GRANT (some "sec") (some "rt"),
         OAUTH_TOKEN_TYPE⟩)
      "GET" "v1/profile").2.2 "cid" (some "t") ["public"] (some "sec")
     (some "rt")⟩

/-- Claim C6 evaluated at a concrete failing input: a credential created
at time 100 with 50 seconds to live is persisted with
`expires_in_seconds = 150` (the absolute expiry, not the relative
seconds-to-live), and reloading the record at time 200 re-adds the clock,
yielding expiry 350 — a remaining lifetime of 150 seconds instead of the
original 50.  The non-time fields do round-trip unchanged. -/
theorem credential_roundtrip_shifts_expiry :
    (save_credential (OAuth2Credential.init 100 "cid" (some "tok") 50 ["a"]
        AUTHORIZATION_CODE_GRANT (some "sec") (some "rt"))).expires_in_seconds
      = 150 ∧
    (OAuth2Credential.init 100 "cid" (some "tok") 50 ["a"]
        AUTHORIZATION_CODE_GRANT (some "sec") (some "rt")).expires_in_seconds
      - 100 = 50 ∧
    (load_credential 200 (save_credential (OAuth2Credential.init 100 "cid"
        (some "tok") 50 ["a"] AUTHORIZATION_CODE_GRANT (some "sec")
        (some "rt")))).expires_in_seconds = 350 ∧
    (load_credential 200 (save_credential (OAuth2Credential.init 100 "cid"
        (some "tok") 50 ["a"] AUTHORIZATION_CODE_GRANT (some "sec")
        (some "rt")))).access_token = some "tok" ∧
    (load_credential 200 (save_credential (OAuth2Credential.init 100 "cid"
        (some "tok") 50 ["a"] AUTHORIZATION_CODE_GRANT (some "sec")
        (some "rt")))).client_id = "cid" ∧
    (load_credential 200 (save_credential (OAuth2Credential.init 100 "cid"
        (some "tok") 50 ["a"] AUTHORIZATION_CODE_GRANT (some "sec")
        (some "rt")))).scopes = ["a"] ∧
    (load_credential 200 (save_credential (OAuth2Credential.init 100 "cid"
        (some "tok") 50 ["a"] AUTHORIZATION_CODE_GRANT (some "sec")
        (some "rt")))).grant_type = AUTHORIZATION_CODE_GRANT ∧
    (load_credential 200 (save_credential (OAuth2Credential.init 100 "cid"
        (some "tok") 50 ["a"] AUTHORIZATION_CODE_GRANT (some "sec")
        (some "rt")))).refresh_token = some "rt" ∧
    ¬((load_credential 200 (save_credential (OAuth2Credential.init 100 "cid"
        (some "tok") 50 ["a"] AUTHORIZATION_CODE_GRANT (some "sec")
        (some "rt")))).expires_in_seconds - 200
      - ((OAuth2Credential.init 100 "cid" (some "tok") 50 ["a"]
          AUTHORIZATION_CODE_GRANT (some "sec")
          (some "rt")).expires_in_seconds - 100) ≤ 1) := by
  decide

end LyftRides
